import Mathlib

/-!
Shallow embedding of `src/spotlight_others.rs` from tauri-plugin-spotlight.

The source is a spotlight-window manager: a `SpotlightManager` holds a
`PluginConfig` and a mutex-guarded list `registered_window` of window labels
that completed setup.  `init_spotlight_window` wires a window up on its first
call (per-window toggle shortcut, shared global close shortcut, focus-change
observer), `show`/`hide` toggle visibility through the toolkit, and the
focus-change handler (un)registers the global close shortcut.

Modelling choices:
* The host toolkit and OS are explicit state: `Sys` records which windows are
  visible, which shortcut combinations are in the OS registry, which window
  holds OS focus, which focus observers are installed, and an append-only log
  of emitted events and native front-bringing calls.
* Fallible toolkit calls are driven by a `Faults` record; each operation
  returns `Sys × Option Error` so that effects performed before a failure
  remain visible (mirroring the imperative code, where an early `?` return
  does not roll back earlier OS calls).
* Machine concurrency (the mutex) appears as the `mutexPoisoned` fault:
  a poisoned lock makes `init_spotlight_window` fail with `Error.Mutex`.
-/

/-- Error enum of the plugin, as used by `spotlight_others.rs`
(`Error::Mutex`, `Error::FailedToCheckWindowVisibility`,
`Error::FailedToShowWindow`, `Error::FailedToHideWindow`, `Error::Other`,
and the `From<tauri::Error>` conversion used by the `?` on
`tauri::Error::Runtime`). -/
inductive Error where
  | Mutex (msg : String)
  | FailedToCheckWindowVisibility
  | FailedToShowWindow
  | FailedToHideWindow
  | Other (msg : String)
  | Tauri
deriving DecidableEq, Repr

/-- One entry per managed window: `label`, optional toggle `shortcut`,
optional `auto_hide` (the code defaults it to `true` via `unwrap_or(true)`). -/
structure WindowConfig where
  label : String
  shortcut : Option String
  auto_hide : Option Bool
deriving DecidableEq, Repr

/-- Process-wide plugin configuration: an optional list of window configs and
an optional global close shortcut combination. -/
structure PluginConfig where
  windows : Option (List WindowConfig)
  global_close_shortcut : Option String
deriving DecidableEq, Repr

/-- Window events delivered by the toolkit to the observer installed by
`handle_focus_state_change`.  The handler only distinguishes
`Focused(false)` from everything else, but other event kinds exist and are
delivered to the same observer, so we model them. -/
inductive WindowEvent where
  | Focused (hasFocus : Bool)
  | Moved
  | Resized
  | CloseRequested
deriving DecidableEq, Repr

/-- Combined state of the manager and its environment.

`registered_window` is the manager field of the same name.  The rest models
the toolkit/OS: `visibleW` the labels of currently visible windows,
`osRegistry` the combinations currently bound in the global shortcut
registry (a list, so double registration would be observable), `toggles` the
toggle callbacks installed by `register_shortcut_for_window` (combination,
window label), `observers` the focus observers installed by
`handle_focus_state_change` (window label, captured auto_hide), `focusedW`
the window currently holding OS focus, `emitted` the log of windows that
received the window_did_resign_key event, `fronted` the log of native
front-bringing calls, `existing` the labels for which `get_window` succeeds. -/
structure Sys where
  registered_window : List String
  visibleW : List String
  osRegistry : List String
  toggles : List (String × String)
  observers : List (String × Bool)
  focusedW : Option String
  emitted : List String
  fronted : List String
  existing : List String
deriving DecidableEq, Repr

/-- Fault injection for the fallible toolkit/OS calls the source makes. -/
structure Faults where
  mutexPoisoned : Bool
  isVisibleFails : Bool
  showFails : Bool
  setFocusFails : Bool
  hideFails : Bool
  registerToggleFails : Bool
  isRegQueryFails : Bool
  registerCloseFails : Bool
  isUnregQueryFails : Bool
  unregisterCloseFails : Bool
deriving DecidableEq, Repr

/-- Fault-free environment: every toolkit/OS call succeeds. -/
def noFaults : Faults :=
  ⟨false, false, false, false, false, false, false, false, false, false⟩

/-- Initial system state: nothing registered, nothing visible, empty OS
registry, no focus. -/
def initSys : Sys :=
  { registered_window := []
    visibleW := []
    osRegistry := []
    toggles := []
    observers := []
    focusedW := none
    emitted := []
    fronted := []
    existing := [] }

/-- Toolkit-level `window.hide()`: makes the window invisible
unconditionally (no visibility pre-check at this level). -/
def toolkitHide (label : String) (s : Sys) : Sys :=
  { s with visibleW := s.visibleW.filter (fun x => x ≠ label) }

/-- `get_window_config`: scan `config.windows` (if present) and return the
first `WindowConfig` whose label matches the window label. -/
def get_window_config (cfg : PluginConfig) (label : String) : Option WindowConfig :=
  match cfg.windows with
  | some wcs => wcs.find? (fun wc => wc.label = label)
  | none => none

/-- `bring_window_to_front`: the native Win32 SW_RESTORE +
SetForegroundWindow call; modelled as an append to the `fronted` log. -/
def bring_window_to_front (label : String) (s : Sys) : Sys :=
  { s with fronted := s.fronted ++ [label] }

/-- `SpotlightManager::show` (source lines 55-65): check visibility (may
fail), no-op when visible; otherwise toolkit show, then set_focus, then the
native front-bringing primitive.  A set_focus failure happens after the
toolkit show already succeeded, so the window stays visible in that error
case. -/
def managerShow (f : Faults) (s : Sys) (label : String) : Sys × Option Error :=
  if f.isVisibleFails then (s, some Error.FailedToCheckWindowVisibility)
  else if label ∈ s.visibleW then (s, none)
  else if f.showFails then (s, some Error.FailedToShowWindow)
  else
    let s1 := { s with visibleW := label :: s.visibleW }
    if f.setFocusFails then (s1, some Error.FailedToShowWindow)
    else
      let s2 := { s1 with focusedW := some label }
      (bring_window_to_front label s2, none)

/-- `SpotlightManager::hide` (source lines 67-75): check visibility (may
fail); hide only when visible, no-op otherwise. -/
def managerHide (f : Faults) (s : Sys) (label : String) : Sys × Option Error :=
  if f.isVisibleFails then (s, some Error.FailedToCheckWindowVisibility)
  else if label ∈ s.visibleW then
    if f.hideFails then (s, some Error.FailedToHideWindow)
    else (toolkitHide label s, none)
  else (s, none)

/-- `register_shortcut_for_window`: no-op when the window config has no
toggle shortcut; otherwise bind the combination in the OS registry and
remember the callback (combination, window label). -/
def register_shortcut_for_window (f : Faults) (s : Sys) (wc : WindowConfig)
    (label : String) : Sys × Option Error :=
  match wc.shortcut with
  | none => (s, none)
  | some c =>
    if f.registerToggleFails then (s, some (Error.Other "failed to register shortcut"))
    else ({ s with osRegistry := s.osRegistry ++ [c],
                   toggles := s.toggles ++ [(c, label)] }, none)

/-- `register_close_shortcut` (source lines 110-138): no-op when no global
close shortcut is configured; otherwise query `is_registered` first — if the
query fails, return the generic registration error without touching the
registry; if it reports registered, do nothing; else bind the combination
(which may itself fail with a tauri runtime error). -/
def register_close_shortcut (cfg : PluginConfig) (f : Faults) (s : Sys) :
    Sys × Option Error :=
  match cfg.global_close_shortcut with
  | none => (s, none)
  | some cs =>
    if f.isRegQueryFails then (s, some (Error.Other "failed to register shortcut"))
    else if cs ∈ s.osRegistry then (s, none)
    else if f.registerCloseFails then (s, some Error.Tauri)
    else ({ s with osRegistry := s.osRegistry ++ [cs] }, none)

/-- `unregister_close_shortcut` (source lines 140-157): no-op when no global
close shortcut is configured; otherwise query `is_registered` first — if the
query fails, return the generic error without touching the registry; if it
reports not registered, do nothing; else unbind the combination. -/
def unregister_close_shortcut (cfg : PluginConfig) (f : Faults) (s : Sys) :
    Sys × Option Error :=
  match cfg.global_close_shortcut with
  | none => (s, none)
  | some cs =>
    if f.isUnregQueryFails then (s, some (Error.Other "failed to unregister shortcut"))
    else if cs ∈ s.osRegistry then
      if f.unregisterCloseFails then (s, some Error.Tauri)
      else ({ s with osRegistry := s.osRegistry.erase cs }, none)
    else (s, none)

/-- `init_spotlight_window` (source lines 32-53): look up the window config
(no-op success when absent); lock `registered_window` (mutex error when
poisoned); when the label is not yet registered: register the toggle
shortcut, register the close shortcut, install the focus observer, and push
the label.  Errors propagate via `?`, keeping effects already performed. -/
def init_spotlight_window (cfg : PluginConfig) (f : Faults) (s : Sys)
    (label : String) : Sys × Option Error :=
  match get_window_config cfg label with
  | none => (s, none)
  | some wc =>
    let auto_hide := wc.auto_hide.getD true
    if f.mutexPoisoned then (s, some (Error.Mutex "failed to lock registered window"))
    else if label ∈ s.registered_window then (s, none)
    else
      match register_shortcut_for_window f s wc label with
      | (s1, some e) => (s1, some e)
      | (s1, none) =>
        match register_close_shortcut cfg f s1 with
        | (s2, some e) => (s2, some e)
        | (s2, none) =>
          let s3 := { s2 with observers := s2.observers ++ [(label, auto_hide)] }
          ({ s3 with registered_window := s3.registered_window ++ [label] }, none)

/-- Toolkit focus bookkeeping: a `Focused(true)` event means the window now
holds OS focus; `Focused(false)` means it lost it; other events leave focus
unchanged.  This happens in the environment, before the installed handler
body runs. -/
def updateFocus (label : String) (e : WindowEvent) (s : Sys) : Sys :=
  match e with
  | WindowEvent.Focused true => { s with focusedW := some label }
  | WindowEvent.Focused false =>
    if s.focusedW = some label then { s with focusedW := none } else s
  | _ => s

/-- Body of the closure installed by `handle_focus_state_change` (source
lines 161-176).  On `Focused(false)`: unregister the close shortcut (its
result is unwrapped, so a failure aborts the handler), then either hide the
window (auto_hide) or emit the window_did_resign_key event to it.  On every
other event (the `else` arm): register the close shortcut.

The emit arm of the source (lines 167-171) references the identifiers
`app_handle` and `label` which are not in scope in that closure, so that
branch does not compile as written; we model the evident intent, emitting on
the handled window itself. -/
def focus_event_handler (cfg : PluginConfig) (f : Faults) (label : String)
    (auto_hide : Bool) (e : WindowEvent) (s : Sys) : Sys × Option Error :=
  match e with
  | WindowEvent.Focused false =>
    match unregister_close_shortcut cfg f s with
    | (s1, some err) => (s1, some err)
    | (s1, none) =>
      if auto_hide then
        if f.hideFails then (s1, some Error.FailedToHideWindow)
        else (toolkitHide label s1, none)
      else ({ s1 with emitted := s1.emitted ++ [label] }, none)
  | _ => register_close_shortcut cfg f s

/-- Delivery of a window event to an installed observer: the toolkit updates
its own focus state, then runs the handler body. -/
def deliverEvent (cfg : PluginConfig) (f : Faults) (label : String)
    (auto_hide : Bool) (e : WindowEvent) (s : Sys) : Sys × Option Error :=
  focus_event_handler cfg f label auto_hide e (updateFocus label e s)

/-- Callback of the per-window toggle shortcut (source lines 97-105): query
visibility (unwrapped), then `manager.hide` when visible else
`manager.show`. -/
def toggle_callback (f : Faults) (s : Sys) (label : String) : Sys × Option Error :=
  if f.isVisibleFails then (s, some Error.FailedToCheckWindowVisibility)
  else if label ∈ s.visibleW then managerHide f s label
  else managerShow f s label

/-- One step of the close-shortcut callback loop: hide the window with this
label if it still exists, skip it otherwise. -/
def closeStep (st : Sys) (l : String) : Sys :=
  if l ∈ st.existing then toolkitHide l st else st

/-- Callback of the global close shortcut (source lines 119-130): snapshot
`registered_window` under the lock, release it, then for each label in the
snapshot hide the window if it still exists (skip otherwise). -/
def close_callback (s : Sys) : Sys :=
  s.registered_window.foldl closeStep s

/-- Reachable states of the whole system under a fixed configuration: start
from `initSys` (with any set of existing windows), then any interleaving of
window initialisations, window events delivered to installed observers,
toggle-shortcut firings, close-shortcut firings (only possible while the
combination is in the OS registry), and public show/hide calls.  Handler
steps require success (the source unwraps there, so a failure aborts the
process); show/hide steps may fail, since their errors are returned to the
caller and the halfway-updated state persists. -/
inductive Reachable (cfg : PluginConfig) : Sys → Prop where
  | base (ex : List String) : Reachable cfg { initSys with existing := ex }
  | stepInit (f : Faults) (label : String) (s s' : Sys) :
      Reachable cfg s → init_spotlight_window cfg f s label = (s', none) →
      Reachable cfg s'
  | stepEvent (f : Faults) (label : String) (ah : Bool) (e : WindowEvent)
      (s s' : Sys) :
      Reachable cfg s → (label, ah) ∈ s.observers →
      deliverEvent cfg f label ah e s = (s', none) → Reachable cfg s'
  | stepToggle (f : Faults) (c label : String) (s s' : Sys) :
      Reachable cfg s → (c, label) ∈ s.toggles →
      toggle_callback f s label = (s', none) → Reachable cfg s'
  | stepClose (cs : String) (s : Sys) :
      Reachable cfg s → cfg.global_close_shortcut = some cs →
      cs ∈ s.osRegistry → Reachable cfg (close_callback s)
  | stepShow (f : Faults) (label : String) (s s' : Sys) (e : Option Error) :
      Reachable cfg s → managerShow f s label = (s', e) → Reachable cfg s'
  | stepHide (f : Faults) (label : String) (s s' : Sys) (e : Option Error) :
      Reachable cfg s → managerHide f s label = (s', e) → Reachable cfg s'

/-! ### Preservation helper lemmas -/

theorem toolkitHide_registered (label : String) (s : Sys) :
    (toolkitHide label s).registered_window = s.registered_window := rfl

theorem toolkitHide_osRegistry (label : String) (s : Sys) :
    (toolkitHide label s).osRegistry = s.osRegistry := rfl

theorem managerShow_registered (f : Faults) (s : Sys) (label : String) :
    (managerShow f s label).1.registered_window = s.registered_window := by
  unfold managerShow bring_window_to_front
  split_ifs <;> rfl

theorem managerShow_osRegistry (f : Faults) (s : Sys) (label : String) :
    (managerShow f s label).1.osRegistry = s.osRegistry := by
  unfold managerShow bring_window_to_front
  split_ifs <;> rfl

theorem managerHide_registered (f : Faults) (s : Sys) (label : String) :
    (managerHide f s label).1.registered_window = s.registered_window := by
  unfold managerHide toolkitHide
  split_ifs <;> rfl

theorem managerHide_osRegistry (f : Faults) (s : Sys) (label : String) :
    (managerHide f s label).1.osRegistry = s.osRegistry := by
  unfold managerHide toolkitHide
  split_ifs <;> rfl

theorem toggle_callback_registered (f : Faults) (s : Sys) (label : String) :
    (toggle_callback f s label).1.registered_window = s.registered_window := by
  unfold toggle_callback
  split_ifs <;> simp [managerShow_registered, managerHide_registered]

theorem toggle_callback_osRegistry (f : Faults) (s : Sys) (label : String) :
    (toggle_callback f s label).1.osRegistry = s.osRegistry := by
  unfold toggle_callback
  split_ifs <;> simp [managerShow_osRegistry, managerHide_osRegistry]

theorem closeStep_registered (st : Sys) (l : String) :
    (closeStep st l).registered_window = st.registered_window := by
  unfold closeStep
  split_ifs <;> rfl

theorem closeStep_osRegistry (st : Sys) (l : String) :
    (closeStep st l).osRegistry = st.osRegistry := by
  unfold closeStep
  split_ifs <;> rfl

theorem closeStep_existing (st : Sys) (l : String) :
    (closeStep st l).existing = st.existing := by
  unfold closeStep
  split_ifs <;> rfl

theorem closeFold_registered (ls : List String) (s : Sys) :
    (ls.foldl closeStep s).registered_window = s.registered_window := by
  induction ls generalizing s with
  | nil => rfl
  | cons a ls ih => rw [List.foldl_cons, ih, closeStep_registered]

theorem closeFold_osRegistry (ls : List String) (s : Sys) :
    (ls.foldl closeStep s).osRegistry = s.osRegistry := by
  induction ls generalizing s with
  | nil => rfl
  | cons a ls ih => rw [List.foldl_cons, ih, closeStep_osRegistry]

theorem closeFold_existing (ls : List String) (s : Sys) :
    (ls.foldl closeStep s).existing = s.existing := by
  induction ls generalizing s with
  | nil => rfl
  | cons a ls ih => rw [List.foldl_cons, ih, closeStep_existing]

theorem close_callback_registered (s : Sys) :
    (close_callback s).registered_window = s.registered_window :=
  closeFold_registered s.registered_window s

theorem close_callback_osRegistry (s : Sys) :
    (close_callback s).osRegistry = s.osRegistry :=
  closeFold_osRegistry s.registered_window s

theorem rsfw_registered (f : Faults) (s : Sys) (wc : WindowConfig) (label : String) :
    (register_shortcut_for_window f s wc label).1.registered_window = s.registered_window := by
  unfold register_shortcut_for_window
  rcases wc.shortcut with _ | c
  · rfl
  · split_ifs <;> rfl

theorem rcs_registered (cfg : PluginConfig) (f : Faults) (s : Sys) :
    (register_close_shortcut cfg f s).1.registered_window = s.registered_window := by
  unfold register_close_shortcut
  split
  · rfl
  · split_ifs <;> rfl

theorem ucs_registered (cfg : PluginConfig) (f : Faults) (s : Sys) :
    (unregister_close_shortcut cfg f s).1.registered_window = s.registered_window := by
  unfold unregister_close_shortcut
  split
  · rfl
  · split_ifs <;> rfl

theorem updateFocus_registered (label : String) (e : WindowEvent) (s : Sys) :
    (updateFocus label e s).registered_window = s.registered_window := by
  unfold updateFocus
  rcases e with b | _ | _ | _ <;> try rfl
  rcases b <;> [split_ifs <;> rfl; rfl]

theorem updateFocus_osRegistry (label : String) (e : WindowEvent) (s : Sys) :
    (updateFocus label e s).osRegistry = s.osRegistry := by
  unfold updateFocus
  rcases e with b | _ | _ | _ <;> try rfl
  rcases b <;> [split_ifs <;> rfl; rfl]

theorem handler_registered (cfg : PluginConfig) (f : Faults) (label : String)
    (ah : Bool) (e : WindowEvent) (s : Sys) :
    (focus_event_handler cfg f label ah e s).1.registered_window = s.registered_window := by
  unfold focus_event_handler
  rcases e with b | _ | _ | _
  · rcases b
    · rcases hu : unregister_close_shortcut cfg f s with ⟨s1, e1⟩
      have h1 : s1.registered_window = s.registered_window := by
        have h2 := ucs_registered cfg f s
        rw [hu] at h2
        exact h2
      rcases e1 with _ | err
      · dsimp only
        split_ifs <;> simp [toolkitHide, h1]
      · exact h1
    · exact rcs_registered cfg f s
  · exact rcs_registered cfg f s
  · exact rcs_registered cfg f s
  · exact rcs_registered cfg f s

theorem deliverEvent_registered (cfg : PluginConfig) (f : Faults) (label : String)
    (ah : Bool) (e : WindowEvent) (s : Sys) :
    (deliverEvent cfg f label ah e s).1.registered_window = s.registered_window := by
  unfold deliverEvent
  rw [handler_registered, updateFocus_registered]

/-! ### Behaviour of show / hide in the fault-free environment -/

theorem managerShow_not_visible (s : Sys) (label : String) (h : label ∉ s.visibleW) :
    managerShow noFaults s label =
      ({ s with visibleW := label :: s.visibleW, focusedW := some label,
                fronted := s.fronted ++ [label] }, none) := by
  unfold managerShow bring_window_to_front
  simp [noFaults, h]

theorem managerShow_visible (s : Sys) (label : String) (h : label ∈ s.visibleW) :
    managerShow noFaults s label = (s, none) := by
  unfold managerShow
  simp [noFaults, h]

theorem managerHide_visible (s : Sys) (label : String) (h : label ∈ s.visibleW) :
    managerHide noFaults s label = (toolkitHide label s, none) := by
  unfold managerHide
  simp [noFaults, h]

theorem managerHide_not_visible (s : Sys) (label : String) (h : label ∉ s.visibleW) :
    managerHide noFaults s label = (s, none) := by
  unfold managerHide
  simp [noFaults, h]

theorem not_mem_toolkitHide (s : Sys) (label : String) :
    label ∉ (toolkitHide label s).visibleW := by
  simp [toolkitHide, List.mem_filter]

/-- C3: a window whose label has no matching WindowConfig is ignored:
`init_spotlight_window` returns success and leaves the whole system state
(registration set, OS registry, observers) untouched. -/
theorem spotlight_C3_init_noop_without_config (cfg : PluginConfig) (f : Faults)
    (s : Sys) (label : String) (h : get_window_config cfg label = none) :
    init_spotlight_window cfg f s label = (s, none) := by
  unfold init_spotlight_window
  rw [h]

/-- Witness for C3 at a concrete unmanaged label. -/
theorem spotlight_C3_init_noop_without_config_witness :
    init_spotlight_window ⟨some [⟨"main", some "Cmd+K", some true⟩], some "Cmd+Shift+Esc"⟩
      noFaults initSys "other" = (initSys, none) :=
  spotlight_C3_init_noop_without_config _ noFaults initSys "other" (by decide)

/-- C4: in the fault-free environment, `show` on a hidden window makes it
visible, focuses it, and logs exactly one native front-bringing call; `show`
on a visible window is a no-op; `hide` on a visible window hides it and
`hide` on a hidden window is a no-op. -/
theorem spotlight_C4_show_hide_visibility (s : Sys) (label : String) :
    (label ∉ s.visibleW →
      managerShow noFaults s label =
        ({ s with visibleW := label :: s.visibleW, focusedW := some label,
                  fronted := s.fronted ++ [label] }, none)) ∧
    (label ∈ s.visibleW → managerShow noFaults s label = (s, none)) ∧
    (label ∈ s.visibleW →
      managerHide noFaults s label = (toolkitHide label s, none) ∧
        label ∉ (toolkitHide label s).visibleW) ∧
    (label ∉ s.visibleW → managerHide noFaults s label = (s, none)) :=
  ⟨managerShow_not_visible s label,
   managerShow_visible s label,
   fun h => ⟨managerHide_visible s label h, not_mem_toolkitHide s label⟩,
   managerHide_not_visible s label⟩

/-- Witness for C4 at concrete states: showing the hidden "main" window and
hiding it while hidden. -/
theorem spotlight_C4_show_hide_visibility_witness :
    managerShow noFaults initSys "main" =
      ({ initSys with visibleW := "main" :: initSys.visibleW, focusedW := some "main",
                      fronted := initSys.fronted ++ ["main"] }, none) ∧
    managerHide noFaults initSys "main" = (initSys, none) :=
  ⟨(spotlight_C4_show_hide_visibility initSys "main").1 (by decide),
   (spotlight_C4_show_hide_visibility initSys "main").2.2.2 (by decide)⟩

/-- C5: firing the toggle shortcut of a hidden window ends with the window
visible and focused; firing it again ends with the window hidden. -/
theorem spotlight_C5_toggle_round_trip (s : Sys) (label : String)
    (h : label ∉ s.visibleW) :
    ∃ s1 s2,
      toggle_callback noFaults s label = (s1, none) ∧
      label ∈ s1.visibleW ∧ s1.focusedW = some label ∧
      toggle_callback noFaults s1 label = (s2, none) ∧
      label ∉ s2.visibleW := by
  have hshow : toggle_callback noFaults s label =
      ({ s with visibleW := label :: s.visibleW, focusedW := some label,
                fronted := s.fronted ++ [label] }, none) := by
    unfold toggle_callback
    rw [if_neg (by simp [noFaults]), if_neg h]
    exact managerShow_not_visible s label h
  refine ⟨_, ?_, hshow, by simp, by simp, ?hh, ?hn⟩
  case hh =>
    unfold toggle_callback
    rw [if_neg (by simp [noFaults]), if_pos (List.mem_cons_self label s.visibleW)]
    refine managerHide_visible _ label ?_
    exact List.mem_cons_self label s.visibleW
  case hn => exact not_mem_toolkitHide _ label

/-- Witness for C5: the round trip on the hidden "main" window from the
initial state. -/
theorem spotlight_C5_toggle_round_trip_witness :
    ∃ s1 s2,
      toggle_callback noFaults initSys "main" = (s1, none) ∧
      "main" ∈ s1.visibleW ∧ s1.focusedW = some "main" ∧
      toggle_callback noFaults s1 "main" = (s2, none) ∧
      "main" ∉ s2.visibleW :=
  spotlight_C5_toggle_round_trip initSys "main" (by decide)

/-- C7: both close-shortcut operations query the OS registry first.  A
failing query yields the generic Error.Other message and leaves the registry
untouched; a successful query leads to a register only when the combination
is absent and an unregister only when it is present. -/
theorem spotlight_C7_close_registry_guard (cfg : PluginConfig) (f : Faults)
    (s : Sys) (cs : String) (hcs : cfg.global_close_shortcut = some cs) :
    (f.isRegQueryFails = true →
      register_close_shortcut cfg f s =
        (s, some (Error.Other "failed to register shortcut"))) ∧
    (f.isUnregQueryFails = true →
      unregister_close_shortcut cfg f s =
        (s, some (Error.Other "failed to unregister shortcut"))) ∧
    (f.isRegQueryFails = false → cs ∈ s.osRegistry →
      register_close_shortcut cfg f s = (s, none)) ∧
    (f.isUnregQueryFails = false → cs ∉ s.osRegistry →
      unregister_close_shortcut cfg f s = (s, none)) ∧
    (f.isRegQueryFails = false → cs ∉ s.osRegistry → f.registerCloseFails = false →
      register_close_shortcut cfg f s =
        ({ s with osRegistry := s.osRegistry ++ [cs] }, none)) ∧
    (f.isUnregQueryFails = false → cs ∈ s.osRegistry → f.unregisterCloseFails = false →
      unregister_close_shortcut cfg f s =
        ({ s with osRegistry := s.osRegistry.erase cs }, none)) := by
  refine ⟨fun h1 => ?_, fun h1 => ?_, fun h1 h2 => ?_, fun h1 h2 => ?_,
          fun h1 h2 h3 => ?_, fun h1 h2 h3 => ?_⟩ <;>
    · first
      | (unfold register_close_shortcut; rw [hcs]; simp_all)
      | (unfold unregister_close_shortcut; rw [hcs]; simp_all)

/-- Witness for C7: a failing existence query on a concrete configuration
returns the generic error and leaves the state unchanged. -/
theorem spotlight_C7_close_registry_guard_witness :
    register_close_shortcut ⟨none, some "Cmd+Shift+Esc"⟩
        { noFaults with isRegQueryFails := true } initSys =
      (initSys, some (Error.Other "failed to register shortcut")) :=
  (spotlight_C7_close_registry_guard ⟨none, some "Cmd+Shift+Esc"⟩
    { noFaults with isRegQueryFails := true } initSys "Cmd+Shift+Esc" rfl).1 rfl

/-! ### Frame condition of init on the registration set -/

theorem init_registered_cases (cfg : PluginConfig) (f : Faults) (s : Sys)
    (label : String) :
    (init_spotlight_window cfg f s label).1.registered_window = s.registered_window ∨
    (init_spotlight_window cfg f s label).1.registered_window =
      s.registered_window ++ [label] := by
  unfold init_spotlight_window
  rcases hg : get_window_config cfg label with _ | wc
  · left; rfl
  · dsimp only
    split_ifs with h1 h2
    · left; rfl
    · left; rfl
    · rcases hr : register_shortcut_for_window f s wc label with ⟨s1, e1⟩
      have hs1 : s1.registered_window = s.registered_window := by
        have h3 := rsfw_registered f s wc label
        rw [hr] at h3
        exact h3
      rcases e1 with _ | err
      · dsimp only
        rcases hc : register_close_shortcut cfg f s1 with ⟨s2, e2⟩
        have hs2 : s2.registered_window = s1.registered_window := by
          have h4 := rcs_registered cfg f s1
          rw [hc] at h4
          exact h4
        rcases e2 with _ | err2
        · right
          dsimp only
          rw [hs2, hs1]
        · left
          dsimp only
          rw [hs2, hs1]
      · left
        dsimp only
        exact hs1

/-- C10: `show` and `hide` (and every callback: toggle, close, focus
handler) leave the registration set untouched; only `init_spotlight_window`
mutates it, and then only by appending the initialised label. -/
theorem spotlight_C10_frame (cfg : PluginConfig) (f : Faults) (s : Sys)
    (label : String) (ah : Bool) (e : WindowEvent) :
    (managerShow f s label).1.registered_window = s.registered_window ∧
    (managerHide f s label).1.registered_window = s.registered_window ∧
    (toggle_callback f s label).1.registered_window = s.registered_window ∧
    (close_callback s).registered_window = s.registered_window ∧
    (deliverEvent cfg f label ah e s).1.registered_window = s.registered_window ∧
    ((init_spotlight_window cfg f s label).1.registered_window = s.registered_window ∨
     (init_spotlight_window cfg f s label).1.registered_window =
       s.registered_window ++ [label]) :=
  ⟨managerShow_registered f s label,
   managerHide_registered f s label,
   toggle_callback_registered f s label,
   close_callback_registered s,
   deliverEvent_registered cfg f label ah e s,
   init_registered_cases cfg f s label⟩

/-! ### Concrete configuration and states used by witnesses -/

/-- Concrete configuration: one managed window "main" with a toggle shortcut
and a global close shortcut. -/
def cfg0 : PluginConfig :=
  ⟨some [⟨"main", some "Cmd+K", some true⟩], some "Cmd+Shift+Esc"⟩

/-- State after initialising "main" from `initSys` under `cfg0` with no
faults (label registered, both shortcuts bound, observer installed, no
window focused). -/
def st1 : Sys :=
  ⟨["main"], [], ["Cmd+K", "Cmd+Shift+Esc"], [("Cmd+K", "main")],
   [("main", true)], none, [], [], []⟩

/-- C2: a first successful `init_spotlight_window` call on an unregistered
managed label leaves exactly one entry for it in the registration set, and a
second call (under any unpoisoned lock) returns success without changing the
state at all — the side effects happen only on the first call. -/
theorem spotlight_C2_init_idempotent (cfg : PluginConfig) (f f2 : Faults)
    (s s' : Sys) (label : String) (wc : WindowConfig)
    (hwc : get_window_config cfg label = some wc)
    (h0 : label ∉ s.registered_window)
    (h1 : init_spotlight_window cfg f s label = (s', none))
    (h2 : f2.mutexPoisoned = false) :
    s'.registered_window.count label = 1 ∧
    init_spotlight_window cfg f2 s' label = (s', none) := by
  have hrw : s'.registered_window = s.registered_window ++ [label] := by
    unfold init_spotlight_window at h1
    rw [hwc] at h1
    dsimp only at h1
    by_cases hmp : f.mutexPoisoned = true
    · rw [if_pos hmp] at h1
      exact absurd h1 (by simp)
    · rw [if_neg hmp, if_neg h0] at h1
      rcases hr : register_shortcut_for_window f s wc label with ⟨s1, e1⟩
      rw [hr] at h1
      have hs1 : s1.registered_window = s.registered_window := by
        have h3 := rsfw_registered f s wc label
        rw [hr] at h3
        exact h3
      rcases e1 with _ | err
      · dsimp only at h1
        rcases hc : register_close_shortcut cfg f s1 with ⟨s2, e2⟩
        rw [hc] at h1
        have hs2 : s2.registered_window = s1.registered_window := by
          have h4 := rcs_registered cfg f s1
          rw [hc] at h4
          exact h4
        rcases e2 with _ | err2
        · dsimp only at h1
          have h5 := congrArg Prod.fst h1
          dsimp at h5
          rw [← h5]
          dsimp only
          rw [hs2, hs1]
        · exact absurd h1 (by simp)
      · exact absurd h1 (by simp)
  constructor
  · rw [hrw]
    simp [List.count_append, List.count_eq_zero_of_not_mem h0]
  · have hmem : label ∈ s'.registered_window := by
      rw [hrw]
      simp
    unfold init_spotlight_window
    rw [hwc]
    dsimp only
    rw [if_neg (by simp [h2]), if_pos hmem]

/-- Witness for C2: initialising "main" twice from the initial state under
`cfg0` yields exactly one registration entry and an unchanged second call. -/
theorem spotlight_C2_init_idempotent_witness :
    st1.registered_window.count "main" = 1 ∧
    init_spotlight_window cfg0 noFaults st1 "main" = (st1, none) :=
  spotlight_C2_init_idempotent cfg0 noFaults noFaults initSys st1 "main"
    ⟨"main", some "Cmd+K", some true⟩ (by decide) (by decide) (by decide) rfl

/-! ### Close-shortcut callback lemmas -/

theorem mem_closeStep_visible (s : Sys) (a x : String)
    (h : x ∈ (closeStep s a).visibleW) : x ∈ s.visibleW := by
  unfold closeStep at h
  split_ifs at h with ha
  · exact (List.mem_filter.mp h).1
  · exact h

theorem closeFold_visible_subset :
    ∀ (ls : List String) (s : Sys) (x : String),
      x ∈ (ls.foldl closeStep s).visibleW → x ∈ s.visibleW := by
  intro ls
  induction ls with
  | nil => intro s x h; exact h
  | cons a ls ih =>
    intro s x h
    rw [List.foldl_cons] at h
    exact mem_closeStep_visible s a x (ih (closeStep s a) x h)

theorem closeFold_not_visible :
    ∀ (ls : List String) (s : Sys) (l : String),
      l ∈ ls → l ∈ s.existing → l ∉ (ls.foldl closeStep s).visibleW := by
  intro ls
  induction ls with
  | nil => intro s l hl _; cases hl
  | cons a ls ih =>
    intro s l hl he
    rw [List.foldl_cons]
    rcases List.mem_cons.mp hl with h | h
    · subst h
      intro hmem
      have h2 := closeFold_visible_subset ls (closeStep s l) l hmem
      have h3 : l ∉ (closeStep s l).visibleW := by
        unfold closeStep
        rw [if_pos he]
        exact not_mem_toolkitHide s l
      exact h3 h2
    · exact ih (closeStep s a) l h (by rw [closeStep_existing]; exact he)

theorem closeFold_visible_of_not_existing :
    ∀ (ls : List String) (s : Sys) (x : String),
      x ∉ s.existing → ((x ∈ (ls.foldl closeStep s).visibleW) ↔ x ∈ s.visibleW) := by
  intro ls
  induction ls with
  | nil => intro s x _; exact Iff.rfl
  | cons a ls ih =>
    intro s x hx
    rw [List.foldl_cons]
    rw [ih (closeStep s a) x (by rw [closeStep_existing]; exact hx)]
    unfold closeStep
    split_ifs with h
    · have hax : x ≠ a := fun heq => hx (heq ▸ h)
      simp [toolkitHide, List.mem_filter, hax]
    · exact Iff.rfl

/-- C9: firing the close shortcut hides every window in the snapshot of
currently registered labels that still exists, regardless of focus; a label
whose window no longer exists is skipped (its visibility is untouched) and
causes no failure (the callback is a total function); the registration set
itself is unchanged. -/
theorem spotlight_C9_close_callback (s : Sys) (l : String)
    (h1 : l ∈ s.registered_window) :
    (l ∈ s.existing → l ∉ (close_callback s).visibleW) ∧
    (l ∉ s.existing → ((l ∈ (close_callback s).visibleW) ↔ l ∈ s.visibleW)) ∧
    (close_callback s).registered_window = s.registered_window ∧
    (close_callback s).existing = s.existing :=
  ⟨fun he => closeFold_not_visible s.registered_window s l h1 he,
   fun he => closeFold_visible_of_not_existing s.registered_window s l he,
   close_callback_registered s,
   closeFold_existing s.registered_window s⟩

/-- Concrete state for the C9 witness: two registered and visible windows,
of which only "main" still exists. -/
def st9 : Sys :=
  ⟨["main", "aux"], ["main", "aux"], [], [], [], none, [], [], ["main"]⟩

/-- Witness for C9: "main" (existing) is hidden by the close callback while
the vanished "aux" window is skipped and keeps its visibility entry. -/
theorem spotlight_C9_close_callback_witness :
    "main" ∉ (close_callback st9).visibleW ∧
    (("aux" ∈ (close_callback st9).visibleW) ↔ "aux" ∈ st9.visibleW) :=
  ⟨(spotlight_C9_close_callback st9 "main" (by decide)).1 (by decide),
   (spotlight_C9_close_callback st9 "aux" (by decide)).2.1 (by decide)⟩

/-! ### Error atomicity of show and hide -/

/-- Fault pattern for C8: the toolkit set_focus call fails while every other
call succeeds. -/
def f8 : Faults :=
  { noFaults with setFocusFails := true }

/-- C8 counterexample: with a hidden "main" window and a failing set_focus,
`show` returns an error yet the window has become visible — the state is not
the same as before the call, refuting the atomicity claim. -/
theorem spotlight_C8_show_error_not_atomic_cex :
    (managerShow f8 initSys "main").2 = some Error.FailedToShowWindow ∧
    (managerShow f8 initSys "main").1 ≠ initSys ∧
    "main" ∈ (managerShow f8 initSys "main").1.visibleW := by
  decide

/-- C8 (amended): every `hide` error and every `show` error raised by the
visibility check or the toolkit show call leaves the window state unchanged;
the single exception is a set_focus failure after a successful show, which
returns an error while the window has just become visible. -/
theorem spotlight_C8_error_behaviour (f : Faults) (s : Sys) (label : String)
    (s' : Sys) (e : Error) :
    (managerHide f s label = (s', some e) → s' = s) ∧
    (f.setFocusFails = false → managerShow f s label = (s', some e) → s' = s) ∧
    (f.isVisibleFails = false → f.showFails = false → f.setFocusFails = true →
      label ∉ s.visibleW →
      managerShow f s label =
        ({ s with visibleW := label :: s.visibleW }, some Error.FailedToShowWindow)) := by
  refine ⟨?_, ?_, ?_⟩
  · unfold managerHide
    split_ifs <;> intro h <;>
      first
        | (injection h with ha hb; exact ha.symm)
        | (injection h with ha hb; simp at hb)
  · intro hsf
    unfold managerShow
    rw [hsf]
    simp only [Bool.false_eq_true, if_false]
    split_ifs <;> intro h <;>
      first
        | (injection h with ha hb; exact ha.symm)
        | (injection h with ha hb; simp at hb)
  · intro h1 h2 h3 h4
    unfold managerShow
    rw [if_neg (by simp [h1]), if_neg h4, if_neg (by simp [h2])]
    dsimp only
    rw [if_pos h3]

/-- Witness for C8 (amended): the failing set_focus case at a concrete
state, and a failing visibility check on hide leaving the state intact. -/
theorem spotlight_C8_error_behaviour_witness :
    managerShow f8 initSys "main" =
      ({ initSys with visibleW := "main" :: initSys.visibleW },
        some Error.FailedToShowWindow) :=
  (spotlight_C8_error_behaviour f8 initSys "main" initSys Error.Tauri).2.2
    rfl rfl rfl (by decide)

/-! ### Close-shortcut registration count lemmas -/

theorem not_mem_erase_of_count_le_one (l : List String) (a : String)
    (h : l.count a ≤ 1) : a ∉ l.erase a := by
  intro hmem
  have h1 : 0 < (l.erase a).count a := List.count_pos_iff.mpr hmem
  rw [List.count_erase_self] at h1
  omega

theorem updateFocus_visibleW (label : String) (e : WindowEvent) (s : Sys) :
    (updateFocus label e s).visibleW = s.visibleW := by
  unfold updateFocus
  rcases e with b | _ | _ | _ <;> try rfl
  rcases b <;> [split_ifs <;> rfl; rfl]

theorem updateFocus_emitted (label : String) (e : WindowEvent) (s : Sys) :
    (updateFocus label e s).emitted = s.emitted := by
  unfold updateFocus
  rcases e with b | _ | _ | _ <;> try rfl
  rcases b <;> [split_ifs <;> rfl; rfl]

theorem ucs_visibleW (cfg : PluginConfig) (f : Faults) (s : Sys) :
    (unregister_close_shortcut cfg f s).1.visibleW = s.visibleW := by
  unfold unregister_close_shortcut
  split
  · rfl
  · split_ifs <;> rfl

theorem ucs_emitted (cfg : PluginConfig) (f : Faults) (s : Sys) :
    (unregister_close_shortcut cfg f s).1.emitted = s.emitted := by
  unfold unregister_close_shortcut
  split
  · rfl
  · split_ifs <;> rfl

theorem ucs_noFaults (cfg : PluginConfig) (s : Sys) (cs : String)
    (hcs : cfg.global_close_shortcut = some cs)
    (h : s.osRegistry.count cs ≤ 1) :
    (unregister_close_shortcut cfg noFaults s).2 = none ∧
    cs ∉ (unregister_close_shortcut cfg noFaults s).1.osRegistry := by
  unfold unregister_close_shortcut
  rw [hcs]
  dsimp only
  rw [if_neg (by simp [noFaults])]
  split_ifs with hmem hf
  · exact absurd hf (by simp [noFaults])
  · exact ⟨rfl, not_mem_erase_of_count_le_one s.osRegistry cs h⟩
  · exact ⟨rfl, hmem⟩

theorem count_rsfw (f : Faults) (s : Sys) (wc : WindowConfig) (label cs : String)
    (hne : wc.shortcut ≠ some cs) :
    (register_shortcut_for_window f s wc label).1.osRegistry.count cs =
      s.osRegistry.count cs := by
  unfold register_shortcut_for_window
  rcases hsc : wc.shortcut with _ | c
  · rfl
  · dsimp only
    split_ifs with hf
    · rfl
    · dsimp only
      have hc : ¬(c = cs) := by
        intro h
        exact hne (by rw [hsc, h])
      rw [List.count_append, List.count_singleton]
      simp [hc]

theorem count_rcs (cfg : PluginConfig) (f : Faults) (s : Sys) (cs : String)
    (hcs : cfg.global_close_shortcut = some cs)
    (h : s.osRegistry.count cs ≤ 1) :
    (register_close_shortcut cfg f s).1.osRegistry.count cs ≤ 1 := by
  unfold register_close_shortcut
  rw [hcs]
  dsimp only
  split_ifs with h1 h2 h3
  · exact h
  · exact h
  · exact h
  · dsimp only
    rw [List.count_append, List.count_eq_zero_of_not_mem h2, List.count_singleton]
    simp

theorem count_ucs (cfg : PluginConfig) (f : Faults) (s : Sys) (cs : String) :
    (unregister_close_shortcut cfg f s).1.osRegistry.count cs ≤
      s.osRegistry.count cs := by
  unfold unregister_close_shortcut
  split
  · exact Nat.le_refl _
  · split_ifs with h1 h2 h3
    · exact Nat.le_refl _
    · exact Nat.le_refl _
    · exact (List.erase_sublist _ _).count_le cs
    · exact Nat.le_refl _

theorem mem_windows_of_config (cfg : PluginConfig) (label : String)
    (wc : WindowConfig) (hg : get_window_config cfg label = some wc) :
    wc ∈ cfg.windows.getD [] := by
  unfold get_window_config at hg
  rcases hcw : cfg.windows with _ | wcs
  · rw [hcw] at hg
    simp at hg
  · rw [hcw] at hg
    exact List.mem_of_find?_eq_some hg

theorem count_init (cfg : PluginConfig) (f : Faults) (s : Sys) (label cs : String)
    (hcs : cfg.global_close_shortcut = some cs)
    (hnt : ∀ wc ∈ cfg.windows.getD [], wc.shortcut ≠ some cs)
    (h : s.osRegistry.count cs ≤ 1) :
    (init_spotlight_window cfg f s label).1.osRegistry.count cs ≤ 1 := by
  unfold init_spotlight_window
  rcases hg : get_window_config cfg label with _ | wc
  · exact h
  · have hne := hnt wc (mem_windows_of_config cfg label wc hg)
    dsimp only
    split_ifs with h1 h2
    · exact h
    · exact h
    · rcases hr : register_shortcut_for_window f s wc label with ⟨s1, e1⟩
      have hc1 : s1.osRegistry.count cs = s.osRegistry.count cs := by
        have h3 := count_rsfw f s wc label cs hne
        rw [hr] at h3
        exact h3
      rcases e1 with _ | err
      · dsimp only
        rcases hc : register_close_shortcut cfg f s1 with ⟨s2, e2⟩
        have hc2 : s2.osRegistry.count cs ≤ 1 := by
          have h4 := count_rcs cfg f s1 cs hcs (by rw [hc1]; exact h)
          rw [hc] at h4
          exact h4
        rcases e2 with _ | err2
        · dsimp only
          exact hc2
        · dsimp only
          exact hc2
      · dsimp only
        rw [hc1]
        exact h

theorem count_handler (cfg : PluginConfig) (f : Faults) (label : String)
    (ah : Bool) (e : WindowEvent) (s : Sys) (cs : String)
    (hcs : cfg.global_close_shortcut = some cs)
    (h : s.osRegistry.count cs ≤ 1) :
    (focus_event_handler cfg f label ah e s).1.osRegistry.count cs ≤ 1 := by
  unfold focus_event_handler
  rcases e with b | _ | _ | _
  · rcases b
    · rcases hu : unregister_close_shortcut cfg f s with ⟨s1, e1⟩
      have hc1 : s1.osRegistry.count cs ≤ s.osRegistry.count cs := by
        have h2 := count_ucs cfg f s cs
        rw [hu] at h2
        exact h2
      rcases e1 with _ | err
      · dsimp only
        split_ifs with hah hhf
        · exact Nat.le_trans hc1 h
        · dsimp only [toolkitHide]
          exact Nat.le_trans hc1 h
        · dsimp only
          exact Nat.le_trans hc1 h
      · dsimp only
        exact Nat.le_trans hc1 h
    · exact count_rcs cfg f s cs hcs h
  · exact count_rcs cfg f s cs hcs h
  · exact count_rcs cfg f s cs hcs h
  · exact count_rcs cfg f s cs hcs h

/-! ### The global close shortcut and focus -/

theorem st1_reachable : Reachable cfg0 st1 := by
  refine Reachable.stepInit noFaults "main" { initSys with existing := [] } st1
    (Reachable.base []) ?_
  decide

/-- C1 counterexample: the registered-iff-focused invariant fails on a
reachable state.  Under `cfg0`, initialising the "main" window from the
initial state registers the global close shortcut immediately
(`init_spotlight_window` calls `register_close_shortcut` directly), although
no window holds focus in the resulting state `st1`. -/
theorem spotlight_C1_register_iff_focus_cex :
    ¬ (∀ s, Reachable cfg0 s →
        (("Cmd+Shift+Esc" ∈ s.osRegistry) ↔
          ∃ l, l ∈ s.registered_window ∧ s.focusedW = some l)) := by
  intro hinv
  rcases (hinv st1 st1_reachable).mp (by decide) with ⟨l, _, hf⟩
  have h2 : st1.focusedW = none := rfl
  rw [h2] at hf
  cases hf

/-- C1 (amended): although registration does not track focus (init and any
non-focus-loss window event register the shortcut), the close shortcut is
never double-registered: in every reachable state it occurs at most once in
the OS registry, provided no managed window uses it as its toggle
shortcut. -/
theorem spotlight_C1_close_shortcut_never_double (cfg : PluginConfig)
    (cs : String) (hcs : cfg.global_close_shortcut = some cs)
    (hnt : ∀ wc ∈ cfg.windows.getD [], wc.shortcut ≠ some cs) :
    ∀ s, Reachable cfg s → s.osRegistry.count cs ≤ 1 := by
  intro s h
  induction h with
  | base ex => simp [initSys]
  | stepInit f label s s' hs hstep ih =>
    have h2 := count_init cfg f s label cs hcs hnt ih
    rw [hstep] at h2
    exact h2
  | stepEvent f label ah e s s' hs hobs hstep ih =>
    have h2 : (deliverEvent cfg f label ah e s).1.osRegistry.count cs ≤ 1 := by
      unfold deliverEvent
      refine count_handler cfg f label ah e (updateFocus label e s) cs hcs ?_
      rw [updateFocus_osRegistry]
      exact ih
    rw [hstep] at h2
    exact h2
  | stepToggle f c label s s' hs htog hstep ih =>
    have h2 : (toggle_callback f s label).1.osRegistry.count cs ≤ 1 := by
      rw [toggle_callback_osRegistry]
      exact ih
    rw [hstep] at h2
    exact h2
  | stepClose cs2 s hs hcs2 hmem ih =>
    rw [close_callback_osRegistry]
    exact ih
  | stepShow f label s s' e hs hstep ih =>
    have h2 : (managerShow f s label).1.osRegistry.count cs ≤ 1 := by
      rw [managerShow_osRegistry]
      exact ih
    rw [hstep] at h2
    exact h2
  | stepHide f label s s' e hs hstep ih =>
    have h2 : (managerHide f s label).1.osRegistry.count cs ≤ 1 := by
      rw [managerHide_osRegistry]
      exact ih
    rw [hstep] at h2
    exact h2

/-- Witness for the amended C1 at the concrete reachable state `st1` under
`cfg0`. -/
theorem spotlight_C1_close_shortcut_never_double_witness :
    st1.osRegistry.count "Cmd+Shift+Esc" ≤ 1 :=
  spotlight_C1_close_shortcut_never_double cfg0 "Cmd+Shift+Esc" rfl
    (by decide) st1 st1_reachable

/-- C6: behaviour of the focus observer on a focus-loss event in the
fault-free environment (with the close shortcut registered at most once):
the handler succeeds, the close shortcut is no longer registered afterwards,
and then with auto_hide the window is hidden and nothing is emitted, while
without auto_hide the window keeps its visibility and the
window_did_resign_key event is emitted to it.  The emit arm models the
evident intent of source lines 166-172, whose literal text references
identifiers that are not in scope. -/
theorem spotlight_C6_unfocus_handler (cfg : PluginConfig) (s : Sys)
    (label cs : String) (hcs : cfg.global_close_shortcut = some cs)
    (hct : s.osRegistry.count cs ≤ 1) :
    ((deliverEvent cfg noFaults label true (WindowEvent.Focused false) s).2 = none ∧
     cs ∉ (deliverEvent cfg noFaults label true (WindowEvent.Focused false) s).1.osRegistry ∧
     label ∉ (deliverEvent cfg noFaults label true (WindowEvent.Focused false) s).1.visibleW ∧
     (deliverEvent cfg noFaults label true (WindowEvent.Focused false) s).1.emitted =
       s.emitted) ∧
    ((deliverEvent cfg noFaults label false (WindowEvent.Focused false) s).2 = none ∧
     cs ∉ (deliverEvent cfg noFaults label false (WindowEvent.Focused false) s).1.osRegistry ∧
     (deliverEvent cfg noFaults label false (WindowEvent.Focused false) s).1.visibleW =
       s.visibleW ∧
     (deliverEvent cfg noFaults label false (WindowEvent.Focused false) s).1.emitted =
       s.emitted ++ [label]) := by
  rcases hu : unregister_close_shortcut cfg noFaults
      (updateFocus label (WindowEvent.Focused false) s) with ⟨u1, e1⟩
  have hun := ucs_noFaults cfg (updateFocus label (WindowEvent.Focused false) s) cs hcs
    (by rw [updateFocus_osRegistry]; exact hct)
  rw [hu] at hun
  obtain ⟨he1, hnm⟩ := hun
  dsimp only at he1 hnm
  subst he1
  have hu1v : u1.visibleW = s.visibleW := by
    have h2 := ucs_visibleW cfg noFaults (updateFocus label (WindowEvent.Focused false) s)
    rw [hu] at h2
    dsimp only at h2
    rw [h2, updateFocus_visibleW]
  have hu1e : u1.emitted = s.emitted := by
    have h2 := ucs_emitted cfg noFaults (updateFocus label (WindowEvent.Focused false) s)
    rw [hu] at h2
    dsimp only at h2
    rw [h2, updateFocus_emitted]
  have hres_t : deliverEvent cfg noFaults label true (WindowEvent.Focused false) s =
      (toolkitHide label u1, none) := by
    unfold deliverEvent focus_event_handler
    rw [hu]
    dsimp only
    rw [if_pos (show true = true from rfl),
        if_neg (show ¬(noFaults.hideFails = true) by simp [noFaults])]
  have hres_f : deliverEvent cfg noFaults label false (WindowEvent.Focused false) s =
      ({ u1 with emitted := u1.emitted ++ [label] }, none) := by
    unfold deliverEvent focus_event_handler
    rw [hu]
    dsimp only
    rw [if_neg (show ¬(false = true) by simp)]
  refine ⟨?_, ?_⟩
  · rw [hres_t]
    refine ⟨rfl, ?_, ?_, ?_⟩
    · exact hnm
    · exact not_mem_toolkitHide u1 label
    · dsimp only [toolkitHide]
      exact hu1e
  · rw [hres_f]
    refine ⟨rfl, ?_, ?_, ?_⟩
    · exact hnm
    · exact hu1v
    · dsimp only
      rw [hu1e]

/-- Witness for C6 at the concrete post-init state `st1` under `cfg0`:
losing focus with auto_hide emits nothing and unregisters the close
shortcut; without auto_hide the event is emitted instead. -/
theorem spotlight_C6_unfocus_handler_witness :
    "Cmd+Shift+Esc" ∉
      (deliverEvent cfg0 noFaults "main" true (WindowEvent.Focused false) st1).1.osRegistry ∧
    (deliverEvent cfg0 noFaults "main" false (WindowEvent.Focused false) st1).1.emitted =
      st1.emitted ++ ["main"] :=
  ⟨(spotlight_C6_unfocus_handler cfg0 st1 "main" "Cmd+Shift+Esc" rfl (by decide)).1.2.1,
   (spotlight_C6_unfocus_handler cfg0 st1 "main" "Cmd+Shift+Esc" rfl (by decide)).2.2.2.2⟩
